import Mathlib

/- Shallow embedding of src/main.py of the slack-transcription-worker
   repository.  External effects are modelled as explicit oracle inputs:
   the HTTP responses received from Slack, Deepgram and Zoho Desk, the
   environment variables read at startup, and the temporary audio file.
   Each Python function becomes a Lean function of those oracles; a
   Python value of None or a raised-and-caught exception is modelled with
   Option or a dedicated constructor, mirroring the control flow of the
   source line by line. -/

/-- Python truthiness of an optional string value: None and the empty
string are falsy.  Used for the transcript check at src/main.py:193 and
the configuration checks at src/main.py:72 and src/main.py:113. -/
def pyFalsyOptStr : Option String → Bool
  | none => true
  | some s => s == ""

/-- Rendering of an optional string inside a Python f-string: None
renders as the four letters None, as in the ticket URL at
src/main.py:162. -/
def pyFStr : Option String → String
  | none => "None"
  | some s => s

/-- Python str.strip with the default whitespace set, used on the
transcript at src/main.py:99. -/
def pyStrip (s : String) : String :=
  ⟨((s.data.dropWhile Char.isWhitespace).reverse.dropWhile Char.isWhitespace).reverse⟩

/-- Whether the first character list is a leading segment of the
second. -/
def charsLead : List Char → List Char → Bool
  | [], _ => true
  | _ :: _, [] => false
  | a :: as, b :: bs => a == b && charsLead as bs

/-- Whether pat occurs contiguously inside the second list; together
with strContains this models the Python expression pat in s on
strings, as used at src/main.py:45 and src/main.py:47. -/
def charsSub (pat : List Char) : List Char → Bool
  | [] => charsLead pat []
  | l@(_ :: rest) => charsLead pat l || charsSub pat rest

/-- Substring containment on strings, the Python membership test. -/
def strContains (s pat : String) : Bool :=
  charsSub pat.data s.data

/-- The message of the AttributeError raised by calling .get on a value
that has no such attribute, as formatted by str(e). -/
def pyAttrGetMsg (tyName : String) : String :=
  "\x27" ++ tyName ++ "\x27 object has no attribute \x27get\x27"

/-- The message for .get called on None, raised at src/main.py:208 when
create_zoho_desk_ticket returned None, and caught at src/main.py:223. -/
def attrErrNoneGet : String := pyAttrGetMsg "NoneType"

/-- DEEPGRAM_API_KEY, src/main.py:21: os.getenv with a hardcoded
default, so an unset environment variable yields the default key and
only an environment value that is itself empty yields an empty key. -/
def DEEPGRAM_API_KEY (env : Option String) : String :=
  env.getD "3e43c56e7bda92b003f12bcb46ae94dcd2c1b8f4"

/-- Response observed by requests.get in download_audio_from_slack:
status code, the optional content-type header, and the body bytes
(kept as a string). -/
structure FetchResp where
  status : Nat
  contentType : Option String
  content : String
  deriving DecidableEq

/-- The temporary file written at src/main.py:53, identified by its
suffix and content. -/
structure TempFile where
  suffix : String
  content : String
  deriving DecidableEq

/-- Extension inference inlined at src/main.py lines 44 to 50: the
content-type header with default empty string is tested for the two
substrings, defaulting to .mp3. -/
def inferExt (content_type : String) : String :=
  if strContains content_type "audio/mpeg" then ".mp3"
  else if strContains content_type "audio/wav" then ".wav"
  else ".mp3"

/-- download_audio_from_slack, src/main.py lines 31 to 65.  The
file_url and slack_token arguments only form the outbound request,
which the resp oracle answers: none models a transport exception
raised by requests.get (caught at src/main.py:63), some r the received
response.  Returns the temporary file (standing for the returned path)
or none, exactly as the Python function returns a path or None. -/
def download_audio_from_slack (resp : Option FetchResp) : Option TempFile :=
  match resp with
  | none => none
  | some r =>
    if r.status == 200 then
      some { suffix := inferExt (r.contentType.getD ""), content := r.content }
    else
      none

/-- Response observed by the Deepgram POST at src/main.py:82: status
code, the value found by the navigation
results.channels[0].alternatives[0].transcript when it succeeds (none
models a missing field, whose KeyError is caught at src/main.py:104),
and the body text. -/
structure DeepgramResp where
  status : Nat
  transcriptField : Option String
  text : String
  deriving DecidableEq

/-- transcribe_with_deepgram, src/main.py lines 67 to 106, as a
function of the configured key and the network oracle (none models a
transport exception, caught at src/main.py:104).  The second component
records whether the network call was made: the unconfigured branch at
src/main.py:72 returns before any call.  The first component is the
transcript or none, exactly as the Python function returns a string or
None. -/
def transcribe_with_deepgram (key : String) (net : Option DeepgramResp) :
    Option String × Bool :=
  if key == "" then (none, false)
  else
    match net with
    | none => (none, true)
    | some r =>
      if r.status == 200 then
        match r.transcriptField with
        | some t => (some (pyStrip t), true)
        | none => (none, true)
      else
        (none, true)

/-- Response observed by the Zoho Desk POST at src/main.py:153: status
code, the optional id field of the JSON body, and the body text. -/
structure ZohoResp where
  status : Nat
  ticketId : Option String
  text : String
  deriving DecidableEq

/-- Outcome of the Zoho Desk network call: either an exception with its
message (caught at src/main.py:171) or a received response. -/
inductive ZohoNet where
  | exn (msg : String)
  | resp (r : ZohoResp)
  deriving DecidableEq

/-- Python value returned by create_zoho_desk_ticket: either None (the
unconfigured branch) or a dict with a success flag and the keys read
later through .get. -/
inductive PyTicketResult where
  | pyNone : PyTicketResult
  | ticketDict (success : Bool) (ticket_id : Option String)
      (ticket_url : Option String) (error : Option String) : PyTicketResult
  deriving DecidableEq

/-- create_zoho_desk_ticket, src/main.py lines 108 to 176, as a
function of the two configuration values and the network oracle.  The
transcript and metadata arguments only shape the outbound ticket
payload (subject, description, contact), which the oracle answers, so
they are not represented.  The second component records whether the
network call was made: the unconfigured branch at src/main.py:113
returns None before any call. -/
def create_zoho_desk_ticket (zohoKey zohoOrg : Option String)
    (net : ZohoNet) : PyTicketResult × Bool :=
  if pyFalsyOptStr zohoKey || pyFalsyOptStr zohoOrg then (.pyNone, false)
  else
    match net with
    | .exn e => (.ticketDict false none none (some e), true)
    | .resp r =>
      if r.status == 200 || r.status == 201 then
        (.ticketDict true r.ticketId
          (some ("https://desk.zoho.com/desk/v1/tickets/" ++ pyFStr r.ticketId))
          none, true)
      else
        (.ticketDict false none none
          (some ("HTTP " ++ toString r.status ++ ": " ++ r.text)), true)

/-- All oracle inputs of one pipeline run: the Slack fetch response,
the DEEPGRAM_API_KEY environment variable, the Deepgram response, the
two Zoho Desk configuration variables and the Zoho Desk response. -/
structure World where
  fetchResp : Option FetchResp
  deepgramKeyEnv : Option String
  deepgramResp : Option DeepgramResp
  zohoKey : Option String
  zohoOrg : Option String
  zohoNet : ZohoNet
  deriving DecidableEq

/-- The JSON dict returned by process_slack_voice_message: an outer
Option marks whether a key is present in the dict; ticket_id may be
present with value None (JSON null), hence its doubled Option. -/
structure PipeResult where
  success : Bool
  transcript : Option String := none
  ticket_id : Option (Option String) := none
  ticket_url : Option String := none
  message : Option String := none
  error : Option String := none
  deriving DecidableEq

/-- Which outbound network calls a run attempted. -/
structure NetCalls where
  slackFetch : Bool
  deepgram : Bool
  zoho : Bool
  deriving DecidableEq

/-- Observable outcome of one pipeline run: the returned dict, the
network calls attempted, whether the temporary file was created, and
whether its deletion (src/main.py:204, best effort) was attempted. -/
structure PipeTrace where
  result : PipeResult
  calls : NetCalls
  tempCreated : Bool
  tempDeleted : Bool
  deriving DecidableEq

/-- process_slack_voice_message, src/main.py lines 178 to 228.  The
file_url, slack_token and metadata arguments only feed the stage calls,
whose outcomes the World oracles answer.  Note that the cleanup block
at src/main.py lines 202 to 206 sits after the early return of the
transcription-failure branch, and that when create_zoho_desk_ticket
returns None the expression ticket_result.get at src/main.py:208
raises AttributeError, caught by the outer handler at
src/main.py:223. -/
def process_slack_voice_message (w : World) : PipeTrace :=
  match download_audio_from_slack w.fetchResp with
  | none =>
    { result := { success := false,
                  error := some "Failed to download audio from Slack" },
      calls := { slackFetch := true, deepgram := false, zoho := false },
      tempCreated := false, tempDeleted := false }
  | some _tmp =>
    let tr := transcribe_with_deepgram (DEEPGRAM_API_KEY w.deepgramKeyEnv) w.deepgramResp
    if pyFalsyOptStr tr.1 then
      { result := { success := false, error := some "Transcription failed" },
        calls := { slackFetch := true, deepgram := tr.2, zoho := false },
        tempCreated := true, tempDeleted := false }
    else
      let ticket := create_zoho_desk_ticket w.zohoKey w.zohoOrg w.zohoNet
      match ticket.1 with
      | .pyNone =>
        { result := { success := false, error := some attrErrNoneGet },
          calls := { slackFetch := true, deepgram := tr.2, zoho := ticket.2 },
          tempCreated := true, tempDeleted := true }
      | .ticketDict s tid turl terr =>
        if s then
          { result := { success := true, transcript := tr.1,
                        ticket_id := some tid, ticket_url := turl,
                        message := some "Voice message processed successfully" },
            calls := { slackFetch := true, deepgram := tr.2, zoho := ticket.2 },
            tempCreated := true, tempDeleted := true }
        else
          { result := { success := false, transcript := tr.1,
                        error := some (terr.getD "Failed to create Zoho Desk ticket") },
            calls := { slackFetch := true, deepgram := tr.2, zoho := ticket.2 },
            tempCreated := true, tempDeleted := true }

/-- A parsed JSON value, as produced by request.get_json. -/
inductive JValue where
  | jnull
  | jbool (b : Bool)
  | jnum (n : Int)
  | jstr (s : String)
  | jarr (xs : List JValue)
  | jobj (fields : List (String × JValue))

/-- Python type name of a JSON value, as it appears in the
AttributeError message when .get is called on it. -/
def pyTypeName : JValue → String
  | .jnull => "NoneType"
  | .jbool _ => "bool"
  | .jnum _ => "int"
  | .jstr _ => "str"
  | .jarr _ => "list"
  | .jobj _ => "dict"

/-- Python truthiness of a JSON value: None, False, zero, the empty
string, the empty list and the empty dict are falsy.  Tested at
src/main.py:260 and src/main.py:271. -/
def pyTruthy : JValue → Bool
  | .jnull => false
  | .jbool b => b
  | .jnum n => n != 0
  | .jstr s => s != ""
  | .jarr xs => !xs.isEmpty
  | .jobj fs => !fs.isEmpty

/-- Key lookup in the field list of a JSON object. -/
def jLookup : List (String × JValue) → String → Option JValue
  | [], _ => none
  | (k, v) :: rest, key => if k == key then some v else jLookup rest key

/-- Outcome of the Python expression data.get(key): either a value
(None when the key is absent) or a raised AttributeError. -/
inductive GetOutcome where
  | value (v : JValue)
  | raised (msg : String)

/-- data.get(key) on a parsed JSON value: a dict yields the stored
value or None; any other value raises AttributeError. -/
def pyGet (data : JValue) (key : String) : GetOutcome :=
  match data with
  | .jobj fs => .value ((jLookup fs key).getD .jnull)
  | v => .raised (pyAttrGetMsg (pyTypeName v))

/-- Outcome of request.get_json at src/main.py:258 and src/main.py:295:
either a raised exception with its message (for example a malformed
body, caught by the surrounding handler and turned into a 500) or the
parsed value. -/
inductive ParsedBody where
  | raised (msg : String)
  | parsed (v : JValue)

/-- JSON body of an endpoint response: either a flat error object
built by the handler itself, or the serialized pipeline result. -/
inductive EndpointBody where
  | errJson (error : String)
  | pipe (r : PipeResult)
  deriving DecidableEq

/-- What an endpoint returns: HTTP status, JSON body, and which
outbound network calls were made while serving the request. -/
structure HttpReply where
  status : Nat
  body : EndpointBody
  calls : NetCalls
  deriving DecidableEq

/-- No outbound network call. -/
def noCalls : NetCalls :=
  { slackFetch := false, deepgram := false, zoho := false }

/-- slack_webhook, src/main.py lines 254 to 289: a falsy parsed body is
rejected as No JSON data received, then the two required fields are
extracted with .get (which raises on a non-dict body, turned into a
500 by the handler at src/main.py:284), missing or falsy fields give a
400, and otherwise the pipeline runs and its result is returned with
status 200. -/
def slack_webhook (body : ParsedBody) (w : World) : HttpReply :=
  match body with
  | .raised e => { status := 500, body := .errJson e, calls := noCalls }
  | .parsed data =>
    if !pyTruthy data then
      { status := 400, body := .errJson "No JSON data received", calls := noCalls }
    else
      match pyGet data "file_url" with
      | .raised e => { status := 500, body := .errJson e, calls := noCalls }
      | .value file_url =>
        match pyGet data "slack_token" with
        | .raised e => { status := 500, body := .errJson e, calls := noCalls }
        | .value slack_token =>
          if !pyTruthy file_url || !pyTruthy slack_token then
            { status := 400,
              body := .errJson "Missing required fields: file_url and slack_token",
              calls := noCalls }
          else
            let p := process_slack_voice_message w
            { status := 200, body := .pipe p.result, calls := p.calls }

/-- process_voice_message, src/main.py lines 291 to 315: same as
slack_webhook but without the falsy-body check, so .get on a non-dict
body (None included) raises and becomes a 500 via the handler at
src/main.py:310. -/
def process_voice_message (body : ParsedBody) (w : World) : HttpReply :=
  match body with
  | .raised e => { status := 500, body := .errJson e, calls := noCalls }
  | .parsed data =>
    match pyGet data "file_url" with
    | .raised e => { status := 500, body := .errJson e, calls := noCalls }
    | .value file_url =>
      match pyGet data "slack_token" with
      | .raised e => { status := 500, body := .errJson e, calls := noCalls }
      | .value slack_token =>
        if !pyTruthy file_url || !pyTruthy slack_token then
          { status := 400,
            body := .errJson "Missing required fields: file_url and slack_token",
            calls := noCalls }
        else
          let p := process_slack_voice_message w
          { status := 200, body := .pipe p.result, calls := p.calls }

/-- World for claim C1: fetch succeeds with an mpeg content type, the
Deepgram call answers with status 500, so transcription fails. -/
def wC1 : World :=
  { fetchResp := some { status := 200, contentType := some "audio/mpeg", content := "abc" },
    deepgramKeyEnv := none,
    deepgramResp := some { status := 500, transcriptField := none, text := "boom" },
    zohoKey := some "k", zohoOrg := some "o", zohoNet := .exn "unused" }

/-- C1: evaluation of the pipeline at a run where fetch succeeds and
transcription fails.  The result is the Transcription failed failure,
as the claim states, but the temporary file created during fetch is
NOT deleted: the early return at src/main.py:194 precedes the cleanup
block at src/main.py:204, so cleanup only runs when transcription
succeeds. -/
theorem C1_transcription_failure_leaks_temp_file :
    (process_slack_voice_message wC1).result =
      { success := false, error := some "Transcription failed" } ∧
    (process_slack_voice_message wC1).tempCreated = true ∧
    (process_slack_voice_message wC1).tempDeleted = false := by
  decide

/-- World for the C2 counterexample: fetch and transcription succeed,
but the Zoho Desk credential is absent. -/
def wC2 : World :=
  { fetchResp := some { status := 200, contentType := some "audio/mpeg", content := "a" },
    deepgramKeyEnv := none,
    deepgramResp := some { status := 200, transcriptField := some "hello", text := "" },
    zohoKey := none, zohoOrg := some "o", zohoNet := .exn "unused" }

/-- C2 (counterexample): with the helpdesk credential missing, the
submission stage fails while transcription succeeded, yet the returned
failure does NOT carry the transcript: create_zoho_desk_ticket returns
None, ticket_result.get raises, and the outer handler returns only the
exception text. -/
theorem C2_counterexample :
    pyFalsyOptStr
      (transcribe_with_deepgram (DEEPGRAM_API_KEY wC2.deepgramKeyEnv) wC2.deepgramResp).1
      = false ∧
    (create_zoho_desk_ticket wC2.zohoKey wC2.zohoOrg wC2.zohoNet).1 = .pyNone ∧
    (process_slack_voice_message wC2).result.success = false ∧
    (process_slack_voice_message wC2).result.transcript = none := by
  decide

/-- C2 (amended): when fetch and transcription succeed and submission
fails with a service or transport error (a returned failure dict), the
result is success false with the transcript and the submission error
text, and the temporary file is deleted; but when submission fails
because the helpdesk configuration is missing (None returned), the
result is the AttributeError text without the transcript, the
temporary file still being deleted. -/
theorem C2_submission_failure_result (w : World)
    (hd : (download_audio_from_slack w.fetchResp).isSome = true)
    (ht : pyFalsyOptStr
      (transcribe_with_deepgram (DEEPGRAM_API_KEY w.deepgramKeyEnv) w.deepgramResp).1
      = false) :
    (∀ tid turl terr,
      (create_zoho_desk_ticket w.zohoKey w.zohoOrg w.zohoNet).1 =
        .ticketDict false tid turl terr →
      (process_slack_voice_message w).result =
        { success := false,
          transcript :=
            (transcribe_with_deepgram (DEEPGRAM_API_KEY w.deepgramKeyEnv) w.deepgramResp).1,
          error := some (terr.getD "Failed to create Zoho Desk ticket") } ∧
      (process_slack_voice_message w).tempDeleted = true) ∧
    ((create_zoho_desk_ticket w.zohoKey w.zohoOrg w.zohoNet).1 = .pyNone →
      (process_slack_voice_message w).result =
        { success := false, error := some attrErrNoneGet } ∧
      (process_slack_voice_message w).tempDeleted = true) := by
  rcases hdd : download_audio_from_slack w.fetchResp with _ | tmp
  · rw [hdd] at hd; simp at hd
  · constructor
    · intro tid turl terr hct
      unfold process_slack_voice_message
      rw [hdd]
      simp only [ht, hct, Bool.false_eq_true, if_false]
      exact ⟨trivial, trivial⟩
    · intro hct
      unfold process_slack_voice_message
      rw [hdd]
      simp only [ht, hct, Bool.false_eq_true, if_false]
      exact ⟨trivial, trivial⟩

/-- World for the C2 witness: submission answers with a transport
exception carrying the text boom. -/
def wC2b : World :=
  { fetchResp := some { status := 200, contentType := some "audio/mpeg", content := "a" },
    deepgramKeyEnv := none,
    deepgramResp := some { status := 200, transcriptField := some "hello", text := "" },
    zohoKey := some "k", zohoOrg := some "o", zohoNet := .exn "boom" }

/-- C2 witness: the amended theorem applied at a concrete run whose
submission fails with a transport error. -/
theorem C2_submission_failure_result_witness :
    (process_slack_voice_message wC2b).result =
      { success := false, transcript := some "hello", error := some "boom" } ∧
    (process_slack_voice_message wC2b).tempDeleted = true := by
  have h := (C2_submission_failure_result wC2b (by decide) (by decide)).1
    none none (some "boom") (by decide)
  exact ⟨h.1.trans (by decide), h.2⟩

/-- World for the C3 counterexample: fetch and transcription succeed,
the helpdesk organization id is missing. -/
def wC3 : World :=
  { fetchResp := some { status := 200, contentType := some "audio/mpeg", content := "a" },
    deepgramKeyEnv := none,
    deepgramResp := some { status := 200, transcriptField := some "hi there", text := "" },
    zohoKey := some "k", zohoOrg := none, zohoNet := .exn "unused" }

/-- C3 (counterexample): a run whose failure occurred in the submission
stage (fetch succeeded and transcription produced a transcript) and
whose result nevertheless omits the transcript, refuting the claim that
a transcript is absent only for fetch or transcription failures. -/
theorem C3_counterexample :
    (download_audio_from_slack wC3.fetchResp).isSome = true ∧
    pyFalsyOptStr
      (transcribe_with_deepgram (DEEPGRAM_API_KEY wC3.deepgramKeyEnv) wC3.deepgramResp).1
      = false ∧
    (process_slack_voice_message wC3).result.success = false ∧
    (process_slack_voice_message wC3).result.transcript = none := by
  decide

/-- C3 (amended): for every run, a failure result never carries the
ticket_id field; and a failure result omits the transcript exactly when
the fetch failed, or the transcript was falsy, or the helpdesk
configuration was missing (the AttributeError path) — every other
submission-stage failure carries the transcript. -/
theorem C3_result_invariant (w : World) :
    ((process_slack_voice_message w).result.success = false →
      (process_slack_voice_message w).result.ticket_id = none) ∧
    ((process_slack_voice_message w).result.success = false →
      ((process_slack_voice_message w).result.transcript = none ↔
        (download_audio_from_slack w.fetchResp = none ∨
         pyFalsyOptStr
           (transcribe_with_deepgram (DEEPGRAM_API_KEY w.deepgramKeyEnv) w.deepgramResp).1
           = true ∨
         (pyFalsyOptStr w.zohoKey || pyFalsyOptStr w.zohoOrg) = true))) := by
  rcases hdd : download_audio_from_slack w.fetchResp with _ | tmp
  · unfold process_slack_voice_message
    rw [hdd]
    simp
  · unfold process_slack_voice_message
    rw [hdd]
    by_cases hft : pyFalsyOptStr
        (transcribe_with_deepgram (DEEPGRAM_API_KEY w.deepgramKeyEnv) w.deepgramResp).1 = true
    · simp [hft]
    · rw [Bool.not_eq_true] at hft
      have hne : (transcribe_with_deepgram (DEEPGRAM_API_KEY w.deepgramKeyEnv) w.deepgramResp).1
          ≠ none := by
        intro h0
        rw [h0] at hft
        simp [pyFalsyOptStr] at hft
      by_cases hcfg : (pyFalsyOptStr w.zohoKey || pyFalsyOptStr w.zohoOrg) = true
      · unfold create_zoho_desk_ticket
        simp [hft, hcfg]
      · rw [Bool.not_eq_true] at hcfg
        unfold create_zoho_desk_ticket
        rcases hz : w.zohoNet with e | r
        · simp [hft, hcfg, hne]
        · by_cases hs : (r.status == 200 || r.status == 201) = true
          · simp [hft, hcfg, hs]
          · rw [Bool.not_eq_true] at hs
            simp [hft, hcfg, hs, hne]

/-- C3 witness: the amended invariant applied at the concrete run of
the counterexample world. -/
theorem C3_result_invariant_witness :
    (process_slack_voice_message wC3).result.ticket_id = none ∧
    ((process_slack_voice_message wC3).result.transcript = none ↔
      (download_audio_from_slack wC3.fetchResp = none ∨
       pyFalsyOptStr
         (transcribe_with_deepgram (DEEPGRAM_API_KEY wC3.deepgramKeyEnv) wC3.deepgramResp).1
         = true ∨
       (pyFalsyOptStr wC3.zohoKey || pyFalsyOptStr wC3.zohoOrg) = true)) :=
  ⟨(C3_result_invariant wC3).1 (by decide), (C3_result_invariant wC3).2 (by decide)⟩

/-- C4: the fetch stage succeeds exactly when a response arrived with
status 200; on any other status or a transport failure the pipeline
returns the fetch failure result and makes neither the Deepgram nor
the Zoho Desk call. -/
theorem C4_fetch_gate (w : World) :
    ((download_audio_from_slack w.fetchResp).isSome = true ↔
      ∃ r, w.fetchResp = some r ∧ r.status = 200) ∧
    (download_audio_from_slack w.fetchResp = none →
      (process_slack_voice_message w).result =
        { success := false, error := some "Failed to download audio from Slack" } ∧
      (process_slack_voice_message w).calls.deepgram = false ∧
      (process_slack_voice_message w).calls.zoho = false) := by
  constructor
  · rcases hf : w.fetchResp with _ | r
    · simp [download_audio_from_slack]
    · by_cases hs : r.status = 200
      · simp [download_audio_from_slack, hs]
      · simp [download_audio_from_slack, hs]
  · intro hdd
    unfold process_slack_voice_message
    rw [hdd]
    exact ⟨rfl, rfl, rfl⟩

/-- World for the C4 witness: the Slack fetch raises a transport
exception. -/
def wC4 : World :=
  { fetchResp := none, deepgramKeyEnv := none,
    deepgramResp := some { status := 200, transcriptField := some "x", text := "" },
    zohoKey := some "k", zohoOrg := some "o", zohoNet := .exn "unused" }

/-- C4 witness: the gate theorem applied at a run whose fetch fails. -/
theorem C4_fetch_gate_witness :
    (process_slack_voice_message wC4).result =
      { success := false, error := some "Failed to download audio from Slack" } ∧
    (process_slack_voice_message wC4).calls.deepgram = false ∧
    (process_slack_voice_message wC4).calls.zoho = false :=
  (C4_fetch_gate wC4).2 rfl

/-- World for claim C5; the handlers under test return before any use
of the oracles. -/
def wC5 : World :=
  { fetchResp := none, deepgramKeyEnv := none, deepgramResp := none,
    zohoKey := none, zohoOrg := none, zohoNet := .exn "unused" }

/-- C5 (counterexample): an empty JSON object lacks both required
fields, yet the webhook endpoint answers 400 with No JSON data
received (the falsy-body check at src/main.py:260 fires first), not
the missing-fields message the claim requires. -/
theorem C5_counterexample :
    slack_webhook (.parsed (.jobj [])) wC5 =
      { status := 400, body := .errJson "No JSON data received", calls := noCalls } ∧
    EndpointBody.errJson "No JSON data received" ≠
      EndpointBody.errJson "Missing required fields: file_url and slack_token" := by
  exact ⟨rfl, by decide⟩

/-- C5 (amended): a JSON object body lacking file_url or slack_token
(missing or falsy) gets the missing-fields 400 from the process
endpoint always, and from the webhook endpoint whenever the object is
non-empty (truthy); a falsy body gets 400 with No JSON data received
from the webhook endpoint.  In every case no network call is made. -/
theorem C5_missing_fields (fs : List (String × JValue)) (w : World)
    (h : pyTruthy ((jLookup fs "file_url").getD .jnull) = false ∨
         pyTruthy ((jLookup fs "slack_token").getD .jnull) = false) :
    process_voice_message (.parsed (.jobj fs)) w =
      { status := 400,
        body := .errJson "Missing required fields: file_url and slack_token",
        calls := noCalls } ∧
    (pyTruthy (.jobj fs) = true →
      slack_webhook (.parsed (.jobj fs)) w =
        { status := 400,
          body := .errJson "Missing required fields: file_url and slack_token",
          calls := noCalls }) ∧
    (pyTruthy (.jobj fs) = false →
      slack_webhook (.parsed (.jobj fs)) w =
        { status := 400, body := .errJson "No JSON data received",
          calls := noCalls }) := by
  refine ⟨?_, ?_, ?_⟩
  · unfold process_voice_message pyGet
    rcases h with h | h <;> simp [h]
  · intro htr
    unfold slack_webhook pyGet
    rcases h with h | h <;> simp [htr, h]
  · intro htr
    unfold slack_webhook
    simp [htr]

/-- C5 witness: the amended theorem applied to a request whose body is
an object carrying only file_url. -/
theorem C5_missing_fields_witness :
    process_voice_message (.parsed (.jobj [("file_url", .jstr "u")])) wC5 =
      { status := 400,
        body := .errJson "Missing required fields: file_url and slack_token",
        calls := noCalls } ∧
    slack_webhook (.parsed (.jobj [("file_url", .jstr "u")])) wC5 =
      { status := 400,
        body := .errJson "Missing required fields: file_url and slack_token",
        calls := noCalls } := by
  have h := C5_missing_fields [("file_url", .jstr "u")] wC5 (Or.inr (by decide))
  exact ⟨h.1, h.2.1 (by decide)⟩

/-- World for claim C6; as for C5 the diverging paths return before the
oracles are used. -/
def wC6 : World :=
  { fetchResp := none, deepgramKeyEnv := none, deepgramResp := none,
    zohoKey := none, zohoOrg := none, zohoNet := .exn "unused" }

/-- C6 (counterexample): on a JSON body of null the two endpoints
disagree: the webhook endpoint answers 400 No JSON data received while
the process endpoint, lacking the falsy-body check, hits .get on None
and answers 500. -/
theorem C6_counterexample :
    (slack_webhook (.parsed .jnull) wC6).status = 400 ∧
    (process_voice_message (.parsed .jnull) wC6).status = 500 ∧
    slack_webhook (.parsed .jnull) wC6 ≠ process_voice_message (.parsed .jnull) wC6 := by
  decide

/-- C6 (amended): the two endpoints return identical replies for every
request whose body failed to parse or parsed to a truthy value; they
diverge only on falsy parsed bodies. -/
theorem C6_endpoints_agree_on_truthy (body : ParsedBody) (w : World)
    (h : ∀ d, body = .parsed d → pyTruthy d = true) :
    slack_webhook body w = process_voice_message body w := by
  rcases body with e | d
  · rfl
  · have hd := h d rfl
    unfold slack_webhook process_voice_message
    simp [hd]

/-- C6 witness: the agreement theorem applied to a truthy object
body. -/
theorem C6_endpoints_agree_witness :
    slack_webhook (.parsed (.jobj [("k", .jnull)])) wC6 =
      process_voice_message (.parsed (.jobj [("k", .jnull)])) wC6 :=
  C6_endpoints_agree_on_truthy _ wC6 (fun d hd => by cases hd; rfl)

/-- C7 (counterexample): a content type containing both audio/mpeg and
audio/wav contains audio/wav, so the claim requires a .wav suffix, but
the first branch at src/main.py:45 wins and the suffix is .mp3. -/
theorem C7_counterexample :
    strContains "audio/mpeg, audio/wav" "audio/wav" = true ∧
    download_audio_from_slack
      (some { status := 200, contentType := some "audio/mpeg, audio/wav", content := "" }) =
      some { suffix := ".mp3", content := "" } ∧
    (".mp3" : String) ≠ ".wav" := by
  decide

/-- C7 (amended): for every successful fetch response the suffix is a
pure function of the declared content type: containing audio/mpeg gives
.mp3, containing audio/wav without audio/mpeg gives .wav, and anything
else (a missing header included) gives .mp3. -/
theorem C7_extension_inference (r : FetchResp) (h : r.status = 200) :
    (strContains (r.contentType.getD "") "audio/mpeg" = true →
      download_audio_from_slack (some r) =
        some { suffix := ".mp3", content := r.content }) ∧
    (strContains (r.contentType.getD "") "audio/mpeg" = false →
      strContains (r.contentType.getD "") "audio/wav" = true →
      download_audio_from_slack (some r) =
        some { suffix := ".wav", content := r.content }) ∧
    (strContains (r.contentType.getD "") "audio/mpeg" = false →
      strContains (r.contentType.getD "") "audio/wav" = false →
      download_audio_from_slack (some r) =
        some { suffix := ".mp3", content := r.content }) := by
  refine ⟨fun h1 => ?_, fun h1 h2 => ?_, fun h1 h2 => ?_⟩
  · unfold download_audio_from_slack inferExt
    simp [h, h1]
  · unfold download_audio_from_slack inferExt
    simp [h, h1, h2]
  · unfold download_audio_from_slack inferExt
    simp [h, h1, h2]

/-- C7 witness: the amended theorem applied to a wav response. -/
theorem C7_extension_inference_witness :
    download_audio_from_slack
      (some { status := 200, contentType := some "audio/wav", content := "b" }) =
      some { suffix := ".wav", content := "b" } :=
  (C7_extension_inference
      { status := 200, contentType := some "audio/wav", content := "b" } rfl).2.1
    (by decide) (by decide)

/-- C8: when the Deepgram call answers 200 with a well-formed body
whose transcript strips to the empty string, the pipeline treats the
run as a transcription failure and returns the Transcription failed
result without attempting submission, even though the transcription
network call itself was made and succeeded. -/
theorem C8_blank_transcript_is_failure (w : World) (r : DeepgramResp) (t : String)
    (hd : (download_audio_from_slack w.fetchResp).isSome = true)
    (hk : DEEPGRAM_API_KEY w.deepgramKeyEnv ≠ "")
    (hr : w.deepgramResp = some r)
    (hs : r.status = 200)
    (hf : r.transcriptField = some t)
    (hb : pyStrip t = "") :
    (transcribe_with_deepgram (DEEPGRAM_API_KEY w.deepgramKeyEnv) w.deepgramResp).1
      = some "" ∧
    (process_slack_voice_message w).result =
      { success := false, error := some "Transcription failed" } ∧
    (process_slack_voice_message w).calls.deepgram = true ∧
    (process_slack_voice_message w).calls.zoho = false := by
  have htr : transcribe_with_deepgram (DEEPGRAM_API_KEY w.deepgramKeyEnv) w.deepgramResp
      = (some "", true) := by
    unfold transcribe_with_deepgram
    rw [hr]
    simp [hk, hs, hf, hb]
  rcases hdd : download_audio_from_slack w.fetchResp with _ | tmp
  · rw [hdd] at hd; simp at hd
  · refine ⟨by rw [htr], ?_, ?_, ?_⟩ <;>
      (unfold process_slack_voice_message; rw [hdd]; simp [htr, pyFalsyOptStr])

/-- World for the C8 witness: the transcript consists of blanks. -/
def wC8 : World :=
  { fetchResp := some { status := 200, contentType := some "audio/mpeg", content := "a" },
    deepgramKeyEnv := none,
    deepgramResp := some { status := 200, transcriptField := some "   ", text := "" },
    zohoKey := some "k", zohoOrg := some "o", zohoNet := .exn "unused" }

/-- C8 witness: the theorem applied at a run whose transcript is
whitespace only. -/
theorem C8_blank_transcript_is_failure_witness :
    (process_slack_voice_message wC8).result =
      { success := false, error := some "Transcription failed" } ∧
    (process_slack_voice_message wC8).calls.deepgram = true ∧
    (process_slack_voice_message wC8).calls.zoho = false := by
  have h := C8_blank_transcript_is_failure wC8
    { status := 200, transcriptField := some "   ", text := "" } "   "
    (by decide) (by decide) rfl rfl rfl (by decide)
  exact ⟨h.2.1, h.2.2.1, h.2.2.2⟩

/-- C9: a submission response of status 200 or 201 whose JSON body has
no id field still yields a success dict whose ticket_id is None and
whose ticket_url templates the missing identifier as the text None,
and the pipeline reports overall success with those values. -/
theorem C9_missing_ticket_id (w : World) (r : ZohoResp)
    (hd : (download_audio_from_slack w.fetchResp).isSome = true)
    (ht : pyFalsyOptStr
      (transcribe_with_deepgram (DEEPGRAM_API_KEY w.deepgramKeyEnv) w.deepgramResp).1
      = false)
    (hcfg : (pyFalsyOptStr w.zohoKey || pyFalsyOptStr w.zohoOrg) = false)
    (hz : w.zohoNet = .resp r)
    (hs : r.status = 200 ∨ r.status = 201)
    (hid : r.ticketId = none) :
    (create_zoho_desk_ticket w.zohoKey w.zohoOrg w.zohoNet).1 =
      .ticketDict true none (some "https://desk.zoho.com/desk/v1/tickets/None") none ∧
    (process_slack_voice_message w).result.success = true ∧
    (process_slack_voice_message w).result.ticket_id = some none ∧
    (process_slack_voice_message w).result.ticket_url =
      some "https://desk.zoho.com/desk/v1/tickets/None" := by
  have hs2 : (r.status == 200 || r.status == 201) = true := by
    rcases hs with h | h <;> simp [h]
  have hcr : create_zoho_desk_ticket w.zohoKey w.zohoOrg w.zohoNet =
      (.ticketDict true none (some "https://desk.zoho.com/desk/v1/tickets/None") none,
        true) := by
    unfold create_zoho_desk_ticket
    rw [hz]
    simp [hcfg, hs2, hid, pyFStr]
  rcases hdd : download_audio_from_slack w.fetchResp with _ | tmp
  · rw [hdd] at hd; simp at hd
  · refine ⟨by rw [hcr], ?_, ?_, ?_⟩ <;>
      (unfold process_slack_voice_message; rw [hdd]; simp [ht, hcr])

/-- World for the C9 witness: the ticket is created with status 201 and
a body without an id field. -/
def wC9 : World :=
  { fetchResp := some { status := 200, contentType := some "audio/mpeg", content := "a" },
    deepgramKeyEnv := none,
    deepgramResp := some { status := 200, transcriptField := some "hello", text := "" },
    zohoKey := some "k", zohoOrg := some "o",
    zohoNet := .resp { status := 201, ticketId := none, text := "" } }

/-- C9 witness: the theorem applied at a concrete run whose submission
response has no id. -/
theorem C9_missing_ticket_id_witness :
    (process_slack_voice_message wC9).result.success = true ∧
    (process_slack_voice_message wC9).result.ticket_id = some none ∧
    (process_slack_voice_message wC9).result.ticket_url =
      some "https://desk.zoho.com/desk/v1/tickets/None" := by
  have h := C9_missing_ticket_id wC9 { status := 201, ticketId := none, text := "" }
    (by decide) (by decide) (by decide) rfl (Or.inr rfl) rfl
  exact ⟨h.2.1, h.2.2.1, h.2.2.2⟩

/-- C10: the Deepgram key is empty exactly when the environment
variable is present but empty; when the variable is absent the
hardcoded default key is used, so the unconfigured branch is not taken
and the transcription network call is made. -/
theorem C10_default_key_makes_call (env : Option String) (net : Option DeepgramResp) :
    (DEEPGRAM_API_KEY env = "" ↔ env = some "") ∧
    (env = none →
      (transcribe_with_deepgram (DEEPGRAM_API_KEY env) net).2 = true) := by
  constructor
  · cases env with
    | none => decide
    | some s => simp [DEEPGRAM_API_KEY]
  · intro h
    subst h
    have hk : (DEEPGRAM_API_KEY none == "") = false := by decide
    unfold transcribe_with_deepgram
    simp only [hk, Bool.false_eq_true, if_false]
    cases net with
    | none => rfl
    | some r =>
      by_cases hs : (r.status == 200) = true
      · simp only [hs, if_true]
        rcases htf : r.transcriptField with _ | t <;> rfl
      · rw [Bool.not_eq_true] at hs
        simp only [hs, Bool.false_eq_true, if_false]

/-- C10 witness: the theorem applied with the environment variable
absent and a transport failure from Deepgram. -/
theorem C10_default_key_makes_call_witness :
    (transcribe_with_deepgram (DEEPGRAM_API_KEY none) none).2 = true :=
  (C10_default_key_makes_call none none).2 rfl
